import Mathlib

/-!
Verification of the trajecta VRP service (src/utils.py, src/solver.py, src/main.py).

The repository is a thin wrapper around the OR-Tools routing library:
`solve_vrp` builds a routing model, registers the distance matrix as the arc
cost evaluator of every vehicle, optionally attaches a capacity dimension, and
delegates the search to `routing.SolveWithParameters`.  The returned assignment
is rendered by `_extract_solution`; `main.py` validates requests (pydantic
validators on `VRPRequest`) and shapes the HTTP response in `optimize_routes`;
`utils.calculate_distance_matrix` builds the integer distance matrix.

The search itself lives in the external OR-Tools library, so it is modelled
abstractly: `RoutingAssignment` packages exactly the queries the source code
performs on the manager / routing model / assignment triple
(`routing.Start`, `routing.IsEnd`, `manager.IndexToNode`,
`solution.Value(routing.NextVar(i))`, and `routing.GetArcCostForVehicle`,
which — per src/solver.py lines 50-59 — evaluates the registered distance
callback `distance_matrix[IndexToNode(from)][IndexToNode(to)]`).
The `while not routing.IsEnd(index)` loop of `_extract_solution` is embedded
with explicit fuel; every claim that needs the loop to terminate carries the
hypothesis `walkEnds` that an end index is reached within the fuel.
-/

namespace VRP

/-- Embedding of `utils.calculate_distance_matrix` (src/utils.py lines 11-38).
`d i j` models `int(great_circle(coord_i, coord_j).meters)`, the external
geopy great-circle distance truncated to an integer; the function itself
writes `0` on the diagonal and `d i j` off the diagonal, for an `n` by `n`
list-of-lists result. -/
def calculate_distance_matrix (d : Nat → Nat → Int) (n : Nat) : List (List Int) :=
  (List.range n).map (fun i => (List.range n).map (fun j => if i = j then 0 else d i j))

/-- Abstract model of the OR-Tools objects consumed by `_extract_solution`
(src/solver.py lines 107-165): `start v` is `routing.Start(v)`, `isEnd` is
`routing.IsEnd`, `next` is `solution.Value(routing.NextVar(i))` on internal
indices, `indexToNode` is `manager.IndexToNode`, and `dist` is the distance
matrix lookup on node indices — the callback registered as the arc cost
evaluator of all vehicles in src/solver.py lines 50-59, so that
`routing.GetArcCostForVehicle(p, q, v) = dist (indexToNode p) (indexToNode q)`.
`numNodes` is `manager.GetNumberOfNodes()`, the number of locations. -/
structure RoutingAssignment where
  numNodes : Nat
  numVehicles : Nat
  depot : Nat
  dist : Nat → Nat → Int
  start : Nat → Nat
  isEnd : Nat → Bool
  next : Nat → Nat
  indexToNode : Nat → Nat

/-- The node sequence produced for one vehicle by the
`while not routing.IsEnd(index)` loop of `_extract_solution`, including the
final `route.append(manager.IndexToNode(index))` after the loop.  `fuel`
bounds the number of loop iterations. -/
def routeNodes (a : RoutingAssignment) : Nat → Nat → List Nat
  | 0, idx => [a.indexToNode idx]
  | fuel + 1, idx =>
    if a.isEnd idx then [a.indexToNode idx]
    else a.indexToNode idx :: routeNodes a fuel (a.next idx)

/-- The `route_distance` accumulated by the same loop: each iteration adds
`routing.GetArcCostForVehicle(previous_index, index, vehicle_id)`, i.e. the
distance between the nodes of consecutive internal indices (including the
final step into the end index). -/
def routeDist (a : RoutingAssignment) : Nat → Nat → Int
  | 0, _ => 0
  | fuel + 1, idx =>
    if a.isEnd idx then 0
    else a.dist (a.indexToNode idx) (a.indexToNode (a.next idx)) + routeDist a fuel (a.next idx)

/-- The internal solver indices traversed by the loop (the chain of
`solution.Value(routing.NextVar(_))` values from a start index). -/
def walkIdx (a : RoutingAssignment) : Nat → Nat → List Nat
  | 0, idx => [idx]
  | fuel + 1, idx => if a.isEnd idx then [idx] else idx :: walkIdx a fuel (a.next idx)

/-- `walkEnds a fuel idx = true` iff the chain of `next` steps from `idx`
reaches an index with `isEnd` within `fuel` steps — i.e. the Python `while`
loop terminates within `fuel` iterations. -/
def walkEnds (a : RoutingAssignment) : Nat → Nat → Bool
  | 0, idx => a.isEnd idx
  | fuel + 1, idx => a.isEnd idx || walkEnds a fuel (a.next idx)

/-- The per-vehicle routes collected by the `for vehicle_id in range(num_vehicles)`
loop of `_extract_solution`. -/
def vehicleRoutes (a : RoutingAssignment) (fuel : Nat) : List (List Nat) :=
  (List.range a.numVehicles).map (fun v => routeNodes a fuel (a.start v))

/-- The dictionary produced by `_extract_solution` on success
(src/solver.py lines 161-165). -/
structure Solution where
  total_distance : Int
  routes : List (List Nat)
  unvisited_nodes : List Nat

/-- Embedding of `_extract_solution` (src/solver.py lines 107-165):
walk every vehicle's route, sum the per-route distances, and compute
`unvisited = set(range(manager.GetNumberOfNodes())) - visited`, where
`visited` is the set of nodes appended to any route. -/
def extract_solution (a : RoutingAssignment) (fuel : Nat) : Solution where
  total_distance := ((List.range a.numVehicles).map (fun v => routeDist a fuel (a.start v))).sum
  routes := vehicleRoutes a fuel
  unvisited_nodes :=
    (List.range a.numNodes).filter (fun n => !((vehicleRoutes a fuel).flatten.contains n))

/-- The dictionary returned by `solve_vrp` (src/solver.py lines 95-104):
either the extracted solution (with no `error` key, modelled as `none`) or the
no-solution dictionary with `total_distance = None`, empty routes, every
location index unvisited, and `error = "No solution found"`. -/
structure SolveOutput where
  total_distance : Option Int
  routes : List (List Nat)
  unvisited_nodes : List Nat
  error : Option String

/-- Embedding of the result handling of `solve_vrp` (src/solver.py lines
95-104).  The OR-Tools search `routing.SolveWithParameters` is external; its
outcome is the parameter `result : Option RoutingAssignment` (`none` models a
falsy assignment, i.e. no solution found). `numLocations` is
`len(distance_matrix)`. -/
def solve_vrp (result : Option RoutingAssignment) (numLocations fuel : Nat) : SolveOutput :=
  match result with
  | some a =>
    { total_distance := some (extract_solution a fuel).total_distance
      routes := (extract_solution a fuel).routes
      unvisited_nodes := (extract_solution a fuel).unvisited_nodes
      error := none }
  | none =>
    { total_distance := none
      routes := []
      unvisited_nodes := List.range numLocations
      error := some "No solution found" }

/-- Sum of arc costs over consecutive pairs of a node list — the
`for i in range(len(route_indices) - 1)` loop of `optimize_routes`
(src/main.py lines 150-154). -/
def arcSum (d : Nat → Nat → Int) : List Nat → Int
  | [] => 0
  | [_] => 0
  | i :: j :: rest => d i j + arcSum d (j :: rest)

/-- The `Route` response model of src/main.py lines 61-65. -/
structure RouteOut where
  vehicle_id : Nat
  location_ids : List String
  distance : Int

/-- The `VRPResponse` model of src/main.py lines 68-74. -/
structure VRPResponse where
  total_distance : Int
  routes : List RouteOut
  unvisited_nodes : List String
  success : Bool
  message : Option String

/-- The `for vehicle_id, route_indices in enumerate(solution["routes"])` loop
of `optimize_routes` (src/main.py lines 145-160): map indices to external ids
and recompute each route's distance from the distance matrix.  Out-of-range
indices (never produced by the solver) read as the empty id. -/
def buildRoutes (ids : List String) (d : Nat → Nat → Int) : Nat → List (List Nat) → List RouteOut
  | _, [] => []
  | vid, r :: rest =>
    { vehicle_id := vid
      location_ids := r.map (fun i => ids.getD i "")
      distance := arcSum d r } :: buildRoutes ids d (vid + 1) rest

/-- Embedding of the response shaping of `optimize_routes`
(src/main.py lines 133-173): on a solver error, answer with
`total_distance = 0`, no routes, every location id unvisited, `success=False`
and the error message; otherwise convert indices to ids, recompute per-route
distances, and answer with `success=True`. -/
def optimize_routes (ids : List String) (d : Nat → Nat → Int) (sol : SolveOutput) : VRPResponse :=
  match sol.error with
  | some e =>
    { total_distance := 0
      routes := []
      unvisited_nodes := ids
      success := false
      message := some e }
  | none =>
    { total_distance := sol.total_distance.getD 0
      routes := buildRoutes ids d 0 sol.routes
      unvisited_nodes := sol.unvisited_nodes.map (fun i => ids.getD i "")
      success := true
      message := some "Optimization completed successfully" }

/-- Embedding of the `validate_capacities` pydantic validator
(src/main.py lines 42-48): error iff capacities are supplied with a length
different from `num_vehicles`. -/
def validate_capacities (caps : Option (List Int)) (num_vehicles : Nat) : Except String Unit :=
  match caps with
  | none => Except.ok ()
  | some v =>
    if v.length ≠ num_vehicles then Except.error "Number of capacities must match num_vehicles"
    else Except.ok ()

/-- Embedding of the `validate_demands` pydantic validator
(src/main.py lines 50-58): error iff demands are supplied with a length
different from the number of locations, or with a non-zero depot demand. -/
def validate_demands (demands : Option (List Int)) (num_locations : Nat) : Except String Unit :=
  match demands with
  | none => Except.ok ()
  | some v =>
    if v.length ≠ num_locations then Except.error "Number of demands must match number of locations"
    else if v.getD 0 0 ≠ 0 then Except.error "Depot demand must be 0"
    else Except.ok ()

/-- Request validation as performed by the `VRPRequest` model: both field
validators must accept.  This is the only validation in the code path —
`solve_vrp` itself performs no checks. -/
def validate_request (caps demands : Option (List Int)) (num_vehicles num_locations : Nat) :
    Except String Unit :=
  match validate_capacities caps num_vehicles with
  | Except.error e => Except.error e
  | Except.ok _ =>
    match validate_demands demands num_locations with
    | Except.error e => Except.error e
    | Except.ok _ => Except.ok ()

/-- The guard of src/solver.py line 62: the capacity dimension is added to the
routing model only when both capacities and demands are present; otherwise it
is silently skipped. -/
def capacityConstraintActive (caps demands : Option (List Int)) : Bool :=
  caps.isSome && demands.isSome

/-- Total demand carried along a route (demand of each visited node, indices
outside the demand list reading as 0). -/
def routeDemand (demands : List Int) (route : List Nat) : Int :=
  (route.map (fun n => demands.getD n 0)).sum

/-- A walked route always starts with the node of its starting index: the loop
appends `manager.IndexToNode(index)` before stepping (or, when the start is
already an end, appends it after the loop). -/
theorem routeNodes_cons (a : RoutingAssignment) (fuel idx : Nat) :
    ∃ t, routeNodes a fuel idx = a.indexToNode idx :: t := by
  cases fuel with
  | zero => exact ⟨[], rfl⟩
  | succ f =>
    cases h : a.isEnd idx with
    | true => exact ⟨[], by simp [routeNodes, h]⟩
    | false => exact ⟨routeNodes a f (a.next idx), by simp [routeNodes, h]⟩

/-- A walked route is never the empty list. -/
theorem routeNodes_ne_nil (a : RoutingAssignment) (fuel idx : Nat) :
    routeNodes a fuel idx ≠ [] := by
  obtain ⟨t, ht⟩ := routeNodes_cons a fuel idx
  simp [ht]

/-- Starting the walk on an end index yields the one-element route. -/
theorem routeNodes_of_isEnd (a : RoutingAssignment) (fuel idx : Nat) (h : a.isEnd idx = true) :
    routeNodes a fuel idx = [a.indexToNode idx] := by
  cases fuel <;> simp [routeNodes, h]

/-- The internal-index walk always starts with the starting index. -/
theorem walkIdx_cons (a : RoutingAssignment) (fuel idx : Nat) :
    ∃ t, walkIdx a fuel idx = idx :: t := by
  cases fuel with
  | zero => exact ⟨[], rfl⟩
  | succ f =>
    cases h : a.isEnd idx with
    | true => exact ⟨[], by simp [walkIdx, h]⟩
    | false => exact ⟨walkIdx a f (a.next idx), by simp [walkIdx, h]⟩

/-- The node route is the internal-index walk mapped through
`manager.IndexToNode`. -/
theorem routeNodes_eq_map (a : RoutingAssignment) : ∀ fuel idx,
    routeNodes a fuel idx = (walkIdx a fuel idx).map a.indexToNode := by
  intro fuel
  induction fuel with
  | zero => intro idx; simp [routeNodes, walkIdx]
  | succ f ih =>
    intro idx
    cases h : a.isEnd idx with
    | true => simp [routeNodes, walkIdx, h]
    | false => simp [routeNodes, walkIdx, h, ih]

/-- The distance accumulated by the extraction loop equals the sum of arc
costs over consecutive node pairs of the extracted route, with no side
condition: both sides truncate consistently when fuel runs out. -/
theorem routeDist_eq_arcSum (a : RoutingAssignment) : ∀ fuel idx,
    routeDist a fuel idx = arcSum a.dist (routeNodes a fuel idx) := by
  intro fuel
  induction fuel with
  | zero => intro idx; simp [routeDist, routeNodes, arcSum]
  | succ f ih =>
    intro idx
    cases h : a.isEnd idx with
    | true => simp [routeDist, routeNodes, h, arcSum]
    | false =>
      obtain ⟨t, ht⟩ := routeNodes_cons a f (a.next idx)
      simp [routeDist, routeNodes, h, ht, arcSum, ih (a.next idx)]

/-- When the walk reaches an end index within its fuel, the extracted route
ends with the node of some end index of the walk — the
`route.append(manager.IndexToNode(index))` performed after the loop. -/
theorem routeNodes_last (a : RoutingAssignment) : ∀ fuel idx, walkEnds a fuel idx = true →
    ∃ e, e ∈ walkIdx a fuel idx ∧ a.isEnd e = true
      ∧ (routeNodes a fuel idx).getLast? = some (a.indexToNode e) := by
  intro fuel
  induction fuel with
  | zero =>
    intro idx h
    exact ⟨idx, by simp [walkIdx], by simpa [walkEnds] using h, by simp [routeNodes]⟩
  | succ f ih =>
    intro idx h
    cases he : a.isEnd idx with
    | true => exact ⟨idx, by simp [walkIdx, he], he, by simp [routeNodes, he]⟩
    | false =>
      have h2 : walkEnds a f (a.next idx) = true := by
        simpa [walkEnds, he] using h
      obtain ⟨e, he1, he2, he3⟩ := ih (a.next idx) h2
      refine ⟨e, by simp [walkIdx, he, he1], he2, ?_⟩
      obtain ⟨t, ht⟩ := routeNodes_cons a f (a.next idx)
      rw [ht] at he3
      simpa [routeNodes, he, ht, List.getLast?_cons_cons] using he3

/-- The routes list has one entry per vehicle. -/
theorem vehicleRoutes_length (a : RoutingAssignment) (fuel : Nat) :
    (vehicleRoutes a fuel).length = a.numVehicles := by
  simp [vehicleRoutes]

/-- Entry `v` of the routes list is the walk of vehicle `v`. -/
theorem vehicleRoutes_getElem (a : RoutingAssignment) (fuel v : Nat)
    (hv : v < (vehicleRoutes a fuel).length) :
    (vehicleRoutes a fuel)[v] = routeNodes a fuel (a.start v) := by
  simp [vehicleRoutes]

/-- Membership in the routes list is exactly being some vehicle's walk. -/
theorem mem_vehicleRoutes (a : RoutingAssignment) (fuel : Nat) (r : List Nat) :
    r ∈ vehicleRoutes a fuel ↔ ∃ v, v < a.numVehicles ∧ routeNodes a fuel (a.start v) = r := by
  simp [vehicleRoutes, List.mem_map, List.mem_range]

/-- Membership in the unvisited list computed by `_extract_solution`:
a node index below `manager.GetNumberOfNodes()` that occurs in no route. -/
theorem mem_unvisited_iff (a : RoutingAssignment) (fuel n : Nat) :
    n ∈ (extract_solution a fuel).unvisited_nodes ↔
      (n < a.numNodes ∧ ∀ r ∈ vehicleRoutes a fuel, n ∉ r) := by
  simp [extract_solution, List.mem_filter, List.mem_range, List.mem_flatten]

/-- The recomputed distance fields of the response routes are the arc-cost
sums of the corresponding index routes. -/
theorem buildRoutes_distances (ids : List String) (d : Nat → Nat → Int) :
    ∀ k rs, (buildRoutes ids d k rs).map RouteOut.distance = rs.map (arcSum d) := by
  intro k rs
  induction rs generalizing k with
  | nil => rfl
  | cons r rest ih => simp [buildRoutes, ih]

/-- The extracted total distance is the sum over the extracted routes of the
arc costs of consecutive node pairs. -/
theorem extract_total_eq (a : RoutingAssignment) (fuel : Nat) :
    (extract_solution a fuel).total_distance
      = ((extract_solution a fuel).routes.map (arcSum a.dist)).sum := by
  simp only [extract_solution, vehicleRoutes, List.map_map]
  congr 1
  apply List.map_congr_left
  intro v _
  simp [Function.comp, routeDist_eq_arcSum]

/-- A concrete assignment in OR-Tools shape for a 3-node, 2-vehicle instance:
internal indices 1 and 2 carry nodes 1 and 2, indices 3 and 4 are the vehicle
starts, indices 5 and 6 the vehicle ends (all mapped to depot 0).  Vehicle 0
drives 3 → 1 → 2 → 5 (route 0,1,2,0); vehicle 1 drives 4 → 6 (unused,
route 0,0). -/
def sampleA : RoutingAssignment where
  numNodes := 3
  numVehicles := 2
  depot := 0
  dist := fun i j => if i = j then 0 else 7
  start := fun v => if v = 0 then 3 else 4
  isEnd := fun i => decide (5 ≤ i)
  next := fun i =>
    if i = 3 then 1 else if i = 1 then 2 else if i = 2 then 5 else if i = 4 then 6 else 0
  indexToNode := fun i => if i = 1 then 1 else if i = 2 then 2 else 0

/-- Claim C1: for every input on which the solver returns a solution, the
reported `total_distance` equals the sum of `arcCost(route[i], route[i+1])`
over every route and every consecutive pair (exact integer arithmetic), and it
also equals the sum of the per-route `distance` fields recomputed by
`optimize_routes` in the response. -/
theorem C1_total_distance (a : RoutingAssignment) (fuel : Nat) (ids : List String) :
    (optimize_routes ids a.dist (solve_vrp (some a) a.numNodes fuel)).total_distance
        = ((solve_vrp (some a) a.numNodes fuel).routes.map (arcSum a.dist)).sum
    ∧ (optimize_routes ids a.dist (solve_vrp (some a) a.numNodes fuel)).total_distance
        = ((optimize_routes ids a.dist
              (solve_vrp (some a) a.numNodes fuel)).routes.map RouteOut.distance).sum := by
  constructor
  · simpa [optimize_routes, solve_vrp] using extract_total_eq a fuel
  · simpa [optimize_routes, solve_vrp, buildRoutes_distances] using extract_total_eq a fuel

/-- Claim C9: for every list of `n` locations, `calculate_distance_matrix`
returns an `n` by `n` matrix of non-negative integers with a zero diagonal.
The hypothesis `hd` records the contract of the external geopy provider:
`int(great_circle(p, q).meters)` is a non-negative integer. -/
theorem C9_matrix_props (d : Nat → Nat → Int) (n : Nat) (hd : ∀ i j, 0 ≤ d i j) :
    (calculate_distance_matrix d n).length = n
    ∧ (∀ row ∈ calculate_distance_matrix d n, row.length = n)
    ∧ (∀ row ∈ calculate_distance_matrix d n, ∀ x ∈ row, 0 ≤ x)
    ∧ (∀ i, ∀ h1 : i < (calculate_distance_matrix d n).length,
        ∀ h2 : i < (calculate_distance_matrix d n)[i].length,
          (calculate_distance_matrix d n)[i][i] = 0) := by
  refine ⟨by simp [calculate_distance_matrix], ?_, ?_, ?_⟩
  · intro row hrow
    obtain ⟨i, _, rfl⟩ := List.mem_map.mp hrow
    simp
  · intro row hrow x hx
    obtain ⟨i, _, rfl⟩ := List.mem_map.mp hrow
    obtain ⟨j, _, rfl⟩ := List.mem_map.mp hx
    by_cases h : i = j
    · simp [h]
    · simpa [h] using hd i j
  · intro i h1 h2
    simp [calculate_distance_matrix]

/-- Witness for C9 at a constant provider on three locations. -/
theorem C9_matrix_props_witness :
    (calculate_distance_matrix (fun _ _ => (5 : Int)) 3).length = 3 :=
  (C9_matrix_props (fun _ _ => (5 : Int)) 3 (fun i j => by simp)).1

/-- Claim C10: whenever the underlying solver finds no solution, the
`/optimize` response has `success = false`, `total_distance = 0`, an empty
routes list, and `unvisited_nodes` equal to the full id list of all locations
— `ids` itself, whose first entry is the depot's own id. -/
theorem C10_error_response (ids : List String) (d : Nat → Nat → Int) (n fuel : Nat) :
    (optimize_routes ids d (solve_vrp none n fuel)).success = false
    ∧ (optimize_routes ids d (solve_vrp none n fuel)).total_distance = 0
    ∧ (optimize_routes ids d (solve_vrp none n fuel)).routes = []
    ∧ (optimize_routes ids d (solve_vrp none n fuel)).unvisited_nodes = ids := by
  exact ⟨rfl, rfl, rfl, rfl⟩

/-- Claim C5: when the solver reports no feasible assignment, the engine does
not raise: `solve_vrp` returns a value whose unvisited list covers every
location, and the response carries `success = false`, a non-empty
`unvisited_nodes`, and the explanatory message. -/
theorem C5_infeasible_response (ids : List String) (d : Nat → Nat → Int) (n fuel : Nat)
    (hids : ids ≠ []) (hn : 0 < n) :
    (optimize_routes ids d (solve_vrp none n fuel)).success = false
    ∧ (optimize_routes ids d (solve_vrp none n fuel)).unvisited_nodes ≠ []
    ∧ (optimize_routes ids d (solve_vrp none n fuel)).message = some "No solution found"
    ∧ (solve_vrp none n fuel).unvisited_nodes ≠ []
    ∧ (solve_vrp none n fuel).error.isSome = true := by
  refine ⟨rfl, ?_, rfl, ?_, rfl⟩
  · simpa [optimize_routes, solve_vrp] using hids
  · simp [solve_vrp, List.range_eq_nil]
    omega

/-- Witness for C5 on a two-location instance. -/
theorem C5_infeasible_response_witness :
    (["depot0", "stop1"] : List String) ≠ [] ∧ (0 : Nat) < 2
    ∧ (optimize_routes ["depot0", "stop1"] (fun _ _ => (1 : Int))
        (solve_vrp none 2 0)).success = false :=
  ⟨by decide, by decide,
    (C5_infeasible_response ["depot0", "stop1"] (fun _ _ => (1 : Int)) 2 0
      (by decide) (by decide)).1⟩

/-- The capacity validator accepts exactly when any supplied capacity list has
length `num_vehicles`. -/
theorem validate_capacities_ok (caps : Option (List Int)) (K : Nat) :
    validate_capacities caps K = Except.ok () ↔ ∀ v, caps = some v → v.length = K := by
  cases caps with
  | none => simp [validate_capacities]
  | some v =>
    simp only [validate_capacities]
    split_ifs with h <;> simp_all

/-- The demand validator accepts exactly when any supplied demand list has
length `num_locations` and zero depot demand. -/
theorem validate_demands_ok (demands : Option (List Int)) (N : Nat) :
    validate_demands demands N = Except.ok ()
      ↔ ∀ v, demands = some v → (v.length = N ∧ v.getD 0 0 = 0) := by
  cases demands with
  | none => simp [validate_demands]
  | some v =>
    simp only [validate_demands]
    split_ifs with h1 h2 <;> simp_all

/-- Request validation accepts exactly when both field validators accept. -/
theorem validate_request_ok (caps demands : Option (List Int)) (K N : Nat) :
    validate_request caps demands K N = Except.ok ()
      ↔ (validate_capacities caps K = Except.ok ()
          ∧ validate_demands demands N = Except.ok ()) := by
  cases hc : validate_capacities caps K with
  | error e => simp [validate_request, hc]
  | ok u =>
    cases hd : validate_demands demands N with
    | error e => cases u; simp [validate_request, hc, hd]
    | ok u2 => cases u; cases u2; simp [validate_request, hc, hd]

/-- Claim C4 counterexample: capacities supplied without demands (and demands
supplied without capacities) pass request validation with no error at all —
the capacity dimension is then silently skipped by the guard of
src/solver.py line 62 — contradicting the claim that such a configuration
fails before solving. -/
theorem C4_counterexample :
    validate_request (some [1]) none 1 2 = Except.ok ()
    ∧ validate_request none (some [0, 3]) 1 2 = Except.ok ()
    ∧ capacityConstraintActive (some [1]) none = false
    ∧ capacityConstraintActive none (some [0, 3]) = false := by
  exact ⟨rfl, rfl, rfl, rfl⟩

/-- Claim C4 (amended): validation fails exactly on a capacity list whose
length differs from the vehicle count, or a demand list whose length differs
from the location count or whose depot entry is non-zero; supplying one of the
two lists without the other is accepted. -/
theorem C4_validation_iff (caps demands : Option (List Int)) (K N : Nat) :
    validate_request caps demands K N = Except.ok ()
      ↔ ((∀ v, caps = some v → v.length = K)
          ∧ (∀ v, demands = some v → (v.length = N ∧ v.getD 0 0 = 0))) := by
  rw [validate_request_ok, validate_capacities_ok, validate_demands_ok]

/-- Witness for C4's amended validation characterisation on a well-formed
request. -/
theorem C4_validation_iff_witness :
    validate_request (some [4]) (some [0, 1]) 1 2 = Except.ok ()
      ↔ ((∀ v, (some ([4] : List Int)) = some v → v.length = 1)
          ∧ (∀ v, (some ([0, 1] : List Int)) = some v → (v.length = 2 ∧ v.getD 0 0 = 0))) :=
  C4_validation_iff (some [4]) (some [0, 1]) 1 2

/-- The external ids of the three locations of end-to-end scenario 3 of the
spec (depot first). -/
def locIds6 : List String := ["depot", "loc1", "loc2"]

/-- A concrete symmetric distance matrix for the three locations of
scenario 3. -/
def dist6 : Nat → Nat → Int := fun i j => if i = j then 0 else 100

/-- The demand entries of scenario 3 are all non-negative (also beyond the
list, where missing entries read as 0). -/
theorem demands3_nonneg : ∀ n : Nat, 0 ≤ ([0, 2, 2] : List Int).getD n 0 := by
  intro n
  match n with
  | 0 => decide
  | 1 => decide
  | 2 => decide
  | n + 3 => simp [List.getD]

/-- With non-negative demands, a route's load is at least the demand of any
node it visits. -/
theorem routeDemand_member_le (demands : List Int) (route : List Nat) (m : Nat)
    (hd : ∀ n, 0 ≤ demands.getD n 0) (hm : m ∈ route) :
    demands.getD m 0 ≤ routeDemand demands route := by
  unfold routeDemand
  refine List.single_le_sum ?_ _ ?_
  · intro x hx
    obtain ⟨n, _, rfl⟩ := List.mem_map.mp hx
    exact hd n
  · exact List.mem_map_of_mem _ hm

/-- Claim C6 counterexample: on scenario 3 (3 locations, 1 vehicle, capacity
[1], demands [0,2,2]) the solver finds no assignment and the response's
`unvisited_nodes` is not `["loc1", "loc2"]` — the error branch of
`optimize_routes` returns the full id list, depot id included. -/
theorem C6_counterexample :
    (optimize_routes locIds6 dist6 (solve_vrp none 3 5)).success = false
    ∧ (optimize_routes locIds6 dist6 (solve_vrp none 3 5)).unvisited_nodes
        ≠ ["loc1", "loc2"] := by
  exact ⟨rfl, by decide⟩

/-- Claim C6 (amended): in scenario 3 neither non-depot node fits any route
(each has demand 2 against capacity 1), and the response reports
`success = false` with `unvisited_nodes = ["depot", "loc1", "loc2"]` — the
external ids of all three locations, the depot's id included — together with
the solver's explanatory message. -/
theorem C6_scenario :
    (∀ route : List Nat, 1 ∈ route → ¬ routeDemand [0, 2, 2] route ≤ 1)
    ∧ (∀ route : List Nat, 2 ∈ route → ¬ routeDemand [0, 2, 2] route ≤ 1)
    ∧ (optimize_routes locIds6 dist6 (solve_vrp none 3 5)).success = false
    ∧ (optimize_routes locIds6 dist6 (solve_vrp none 3 5)).unvisited_nodes
        = ["depot", "loc1", "loc2"]
    ∧ (optimize_routes locIds6 dist6 (solve_vrp none 3 5)).message
        = some "No solution found" := by
  refine ⟨?_, ?_, rfl, rfl, rfl⟩
  · intro route h1 hle
    have h := routeDemand_member_le [0, 2, 2] route 1 demands3_nonneg h1
    rw [show ([0, 2, 2] : List Int).getD 1 0 = 2 from rfl] at h
    omega
  · intro route h2 hle
    have h := routeDemand_member_le [0, 2, 2] route 2 demands3_nonneg h2
    rw [show ([0, 2, 2] : List Int).getD 2 0 = 2 from rfl] at h
    omega

/-- Witness for C6's amended statement: the route depot→1→depot overloads the
single vehicle. -/
theorem C6_scenario_witness : ¬ routeDemand [0, 2, 2] [0, 1, 0] ≤ 1 :=
  C6_scenario.1 [0, 1, 0] (by decide)

/-- In-bounds `getD` access to the routes list is the vehicle's walk. -/
theorem vehicleRoutes_getD (a : RoutingAssignment) (fuel v : Nat) (hv : v < a.numVehicles) :
    (vehicleRoutes a fuel).getD v [] = routeNodes a fuel (a.start v) := by
  unfold vehicleRoutes
  have h2 : v < ((List.range a.numVehicles).map
      (fun v => routeNodes a fuel (a.start v))).length := by
    simpa using hv
  rw [List.getD_eq_getElem _ _ h2]
  simp

/-- Claim C3: the extracted Solution has exactly one route per vehicle; under
the OR-Tools index contract (start indices and end indices map to the depot
node), every route begins and ends at the depot, and a vehicle whose start
index steps directly to an end index yields the empty route depot→depot. -/
theorem C3_route_shape (a : RoutingAssignment) (fuel : Nat)
    (hstart : ∀ v, v < a.numVehicles → a.indexToNode (a.start v) = a.depot)
    (hend : ∀ v, v < a.numVehicles → ∀ i ∈ walkIdx a fuel (a.start v),
        a.isEnd i = true → a.indexToNode i = a.depot)
    (hwalk : ∀ v, v < a.numVehicles → walkEnds a fuel (a.start v) = true) :
    (extract_solution a fuel).routes.length = a.numVehicles
    ∧ (∀ v, v < a.numVehicles →
        ((extract_solution a fuel).routes.getD v []).head? = some a.depot
        ∧ ((extract_solution a fuel).routes.getD v []).getLast? = some a.depot)
    ∧ (∀ v, v < a.numVehicles →
        a.isEnd (a.start v) = false → a.isEnd (a.next (a.start v)) = true →
        (extract_solution a fuel).routes.getD v [] = [a.depot, a.depot]) := by
  have hroutes : (extract_solution a fuel).routes = vehicleRoutes a fuel := rfl
  refine ⟨by rw [hroutes]; exact vehicleRoutes_length a fuel, ?_, ?_⟩
  · intro v hv
    rw [hroutes, vehicleRoutes_getD a fuel v hv]
    constructor
    · obtain ⟨t, ht⟩ := routeNodes_cons a fuel (a.start v)
      rw [ht]
      simp [hstart v hv]
    · obtain ⟨e, he1, he2, he3⟩ := routeNodes_last a fuel (a.start v) (hwalk v hv)
      rw [he3, hend v hv e he1 he2]
  · intro v hv h0 h1
    rw [hroutes, vehicleRoutes_getD a fuel v hv]
    cases fuel with
    | zero =>
      exfalso
      have hw := hwalk v hv
      rw [walkEnds, h0] at hw
      exact Bool.false_ne_true hw
    | succ f =>
      have hm : a.next (a.start v) ∈ walkIdx a (f + 1) (a.start v) := by
        obtain ⟨t, ht⟩ := walkIdx_cons a f (a.next (a.start v))
        simp [walkIdx, h0, ht]
      rw [show routeNodes a (f + 1) (a.start v)
            = a.indexToNode (a.start v) :: routeNodes a f (a.next (a.start v)) from by
          simp [routeNodes, h0]]
      rw [routeNodes_of_isEnd a f (a.next (a.start v)) h1]
      rw [hstart v hv, hend v hv _ hm h1]

/-- Witness for C3 on the sample assignment: the Solution has one route per
vehicle. -/
theorem C3_route_shape_witness :
    (extract_solution sampleA 5).routes.length = sampleA.numVehicles :=
  (C3_route_shape sampleA 5 (by decide) (by decide) (by decide)).1

/-- Claim C7: the extraction (total by construction — it never throws) marks
as unvisited exactly the node indices of the instance that are distinct from
the depot and appear in no route; the depot itself is always visited since
vehicle 0's route starts at it. -/
theorem C7_unvisited_characterization (a : RoutingAssignment) (fuel n : Nat)
    (hK : 0 < a.numVehicles)
    (hstart0 : a.indexToNode (a.start 0) = a.depot) :
    n ∈ (extract_solution a fuel).unvisited_nodes
      ↔ (n < a.numNodes ∧ n ≠ a.depot
          ∧ ∀ r ∈ (extract_solution a fuel).routes, n ∉ r) := by
  have hroutes : (extract_solution a fuel).routes = vehicleRoutes a fuel := rfl
  rw [mem_unvisited_iff, hroutes]
  constructor
  · rintro ⟨h1, h2⟩
    refine ⟨h1, ?_, h2⟩
    intro hdep
    have hr0 : routeNodes a fuel (a.start 0) ∈ vehicleRoutes a fuel :=
      (mem_vehicleRoutes a fuel _).mpr ⟨0, hK, rfl⟩
    have hmem : n ∈ routeNodes a fuel (a.start 0) := by
      obtain ⟨t, ht⟩ := routeNodes_cons a fuel (a.start 0)
      subst hdep
      rw [ht, hstart0]
      exact List.mem_cons_self _ _
    exact h2 _ hr0 hmem
  · rintro ⟨h1, _, h3⟩
    exact ⟨h1, h3⟩

/-- Witness for C7 on the sample assignment at node 1. -/
theorem C7_unvisited_characterization_witness :
    1 ∈ (extract_solution sampleA 5).unvisited_nodes
      ↔ (1 < sampleA.numNodes ∧ 1 ≠ sampleA.depot
          ∧ ∀ r ∈ (extract_solution sampleA 5).routes, 1 ∉ r) :=
  C7_unvisited_characterization sampleA 5 1 (by decide) (by decide)

/-- Claim C2 counterexample: on the sample assignment the depot (node 0, not
unvisited) appears in two distinct routes — the claim fails as soon as it is
quantified over all nodes including the depot, since the extraction appends
the depot to every vehicle's route. -/
theorem C2_counterexample :
    ¬ (∀ n, n < sampleA.numNodes →
        n ∉ (extract_solution sampleA 5).unvisited_nodes →
        ∀ v, v < (extract_solution sampleA 5).routes.length →
        ∀ w, w < (extract_solution sampleA 5).routes.length →
        n ∈ (extract_solution sampleA 5).routes.getD v [] →
        n ∈ (extract_solution sampleA 5).routes.getD w [] → v = w) := by
  intro h
  have h01 := h 0 (by decide) (by decide) 0 (by decide) 1 (by decide) (by decide) (by decide)
  exact absurd h01 (by decide)

/-- Claim C2 (amended): every NON-DEPOT node of the instance that is not
listed in `unvisited_nodes` appears in at least one route, and in no two
distinct routes.  The hypothesis `hinj` records the OR-Tools assignment
contract: distinct vehicles' chains never carry the same non-depot node
(internally, a non-depot node has a single solver index, and each index is
assigned to at most one vehicle's chain). -/
theorem C2_unique_route (a : RoutingAssignment) (fuel n : Nat)
    (hn : n < a.numNodes) (hnd : n ≠ a.depot)
    (hinj : ∀ v, v < a.numVehicles → ∀ w, w < a.numVehicles →
        ∀ i ∈ walkIdx a fuel (a.start v), ∀ j ∈ walkIdx a fuel (a.start w),
          a.indexToNode i = a.indexToNode j → a.indexToNode i ≠ a.depot → v = w)
    (hunv : n ∉ (extract_solution a fuel).unvisited_nodes) :
    (∃ v, v < a.numVehicles ∧ n ∈ routeNodes a fuel (a.start v))
    ∧ (∀ v, v < a.numVehicles → ∀ w, w < a.numVehicles →
        n ∈ routeNodes a fuel (a.start v) → n ∈ routeNodes a fuel (a.start w) → v = w) := by
  constructor
  · by_contra hne
    push_neg at hne
    apply hunv
    rw [mem_unvisited_iff]
    refine ⟨hn, ?_⟩
    intro r hr hmem
    obtain ⟨v, hv, rfl⟩ := (mem_vehicleRoutes a fuel r).mp hr
    exact hne v hv hmem
  · intro v hv w hw hmv hmw
    rw [routeNodes_eq_map] at hmv hmw
    obtain ⟨i, hi, hi2⟩ := List.mem_map.mp hmv
    obtain ⟨j, hj, hj2⟩ := List.mem_map.mp hmw
    exact hinj v hv w hw i hi j hj (by rw [hi2, hj2]) (by rw [hi2]; exact hnd)

/-- Witness for C2's amended statement: node 1 of the sample assignment lies
on some vehicle's route. -/
theorem C2_unique_route_witness :
    ∃ v, v < sampleA.numVehicles ∧ 1 ∈ routeNodes sampleA 5 (sampleA.start v) :=
  (C2_unique_route sampleA 5 1 (by decide) (by decide) (by decide) (by decide)).1

end VRP
